import Mathlib

/-!
Shallow embedding of the finite-state task-routing workflow in
`src/waste-management-system/src/agents/waste_management_workflow.py`
(classes `SupervisorAgent`, `WorkerAgent`, `WasteManagementWorkflow`).

Python values flowing through the workflow state are modelled by `PyVal`
(None, bool, number, string, list, dict).  Numbers are modelled as rationals
and the rendering of numbers inside f-strings is abstracted by `toString`;
no claim depends on numeric rendering.  Exceptions are modelled by
`Except String`; the exact exception texts of CPython are abstracted by
fixed message strings (marked below), faithful in *when* an exception is
raised, which is what the claims depend on.

The four tool collaborators (waste classifier, geolocation, regulation
lookup, location finder) and the chat LLM live outside `src/` and are
black boxes per the specification; they are modelled as oracle parameters
(`Collaborators`).  The JSON dump/parse round trip between a worker and
its tool is folded into the oracle: the oracle receives the already-built
query data and returns the already-parsed value or an exception.

LangGraph's compiled graph (entry point `supervisor`, conditional edges
from `supervisor` keyed on `processing_step`, every worker node returning
to `supervisor`, `generate_response → END`) is modelled by the `runGraph`
loop; LangGraph's recursion limit (default 25 supersteps, exceeding it
raises `GraphRecursionError`) is modelled by the fuel argument, one unit
of fuel per supervisor round (25 supersteps correspond to 12 full
supervisor+worker rounds).
-/

/-- A Python runtime value as it appears in the workflow state:
`None`, a bool, a number (modelled as `ℚ`), a string, a list,
or a string-keyed dict (modelled as an association list). -/
inductive PyVal : Type
  | vNone : PyVal
  | vBool : Bool → PyVal
  | vNum : ℚ → PyVal
  | vStr : String → PyVal
  | vList : List PyVal → PyVal
  | vDict : List (String × PyVal) → PyVal

/-- Python truthiness: `None`/`False`/`0`/`""`/`[]`/`` empty dict `` are falsy. -/
def pyTruthy : PyVal → Bool
  | .vNone => false
  | .vBool b => b
  | .vNum q => decide (q ≠ 0)
  | .vStr s => !s.isEmpty
  | .vList xs => !xs.isEmpty
  | .vDict d => !d.isEmpty

/-- First binding of a key in a Python dict (insertion order, first match). -/
def dictLookup (d : List (String × PyVal)) (k : String) : Option PyVal :=
  match d with
  | [] => none
  | kv :: rest => if kv.1 = k then some kv.2 else dictLookup rest k

/-- Modelled CPython exception text for calling `.get` on a non-dict. -/
def attrGetMsg : String := "AttributeError: object has no attribute get"

/-- Modelled CPython exception text for `.title()` on a non-string. -/
def attrTitleMsg : String := "AttributeError: object has no attribute title"

/-- Modelled CPython exception text for subscripting a non-dict. -/
def typeSubscriptMsg : String := "TypeError: object is not subscriptable"

/-- Modelled CPython exception text for a missing dict key. -/
def keyErrorMsg (k : String) : String := "KeyError: " ++ k

/-- Modelled CPython exception text for `len` of an unsized object. -/
def typeLenMsg : String := "TypeError: object has no len"

/-- Modelled CPython exception text for a bad `:.2f` format operand. -/
def formatErrMsg : String := "ValueError: unsupported format string"

/-- `x.get(k, dflt)`: raises AttributeError unless `x` is a dict. -/
def pyGetD (x : PyVal) (k : String) (dflt : PyVal) : Except String PyVal :=
  match x with
  | .vDict d => .ok ((dictLookup d k).getD dflt)
  | _ => .error attrGetMsg

/-- `x[k]`: KeyError when the key is absent, TypeError when `x` is not a dict. -/
def pySubscript (x : PyVal) (k : String) : Except String PyVal :=
  match x with
  | .vDict d =>
    match dictLookup d k with
    | some v => .ok v
    | none => .error (keyErrorMsg k)
  | _ => .error typeSubscriptMsg

/-- `len(x)`: defined for strings, lists and dicts, TypeError otherwise. -/
def pyLen : PyVal → Except String Nat
  | .vStr s => .ok s.length
  | .vList xs => .ok xs.length
  | .vDict d => .ok d.length
  | _ => .error typeLenMsg

/-- `str(x)` as used by f-string interpolation.  Rendering of numbers and
of compound values is abstracted (deterministic); no claim depends on it. -/
def pyStr : PyVal → String
  | .vNone => "None"
  | .vBool true => "True"
  | .vBool false => "False"
  | .vNum q => toString q
  | .vStr s => s
  | .vList _ => "[...]"
  | .vDict _ => "\x7b...\x7d"

/-- `str.title()` on a character list: a cased character is uppercased when
the previous character is not cased, lowercased otherwise (ASCII behaviour). -/
def titleChars : List Char → Bool → List Char
  | [], _ => []
  | c :: cs, prevCased =>
    (if c.isAlpha then (if prevCased then c.toLower else c.toUpper) else c)
      :: titleChars cs c.isAlpha

/-- `s.title()`. -/
def pyTitle (s : String) : String := String.mk (titleChars s.toList false)

/-- `x.title()` on a value: AttributeError unless `x` is a string. -/
def pyTitleV : PyVal → Except String String
  | .vStr s => .ok (pyTitle s)
  | _ => .error attrTitleMsg

/-- `x[:3]` followed by iteration: a list yields its first three elements,
a string yields its first three characters (each a one-character string),
anything else raises TypeError. -/
def pySlice3 : PyVal → Except String (List PyVal)
  | .vList xs => .ok (xs.take 3)
  | .vStr s => .ok ((s.toList.take 3).map (fun ch => .vStr (String.mk [ch])))
  | _ => .error typeSubscriptMsg

/-- `"\n".join(parts)`. -/
def joinLines (parts : List String) : String :=
  match parts with
  | [] => ""
  | x :: xs => xs.foldl (fun acc y => acc ++ "\n" ++ y) x

/-- The `WasteManagementState` TypedDict of `src/models/types.py`.
The driver constructs every key, so every key is always present;
`user_query` is declared `str` and is set once by the driver and never
written by any stage, so it is modelled as a plain string. -/
structure WMState : Type where
  user_query : String
  user_location : PyVal
  waste_type : PyVal
  waste_classification : PyVal
  local_regulations : PyVal
  disposal_locations : PyVal
  final_response : PyVal
  guidance_steps : PyVal
  error_message : PyVal
  processing_step : PyVal
  confidence_score : PyVal

/-- The five black-box collaborators of the workflow (spec §6), as oracles.
Each tool oracle already includes the JSON dump/parse round trip of the
worker that calls it; `llm` receives the prompt context built by
`generate_final_response` (the fixed system/human message scaffolding is
absorbed into the oracle). -/
structure Collaborators : Type where
  waste_classifier : String → Except String PyVal
  geolocation : String → Except String PyVal
  regulation_lookup : PyVal → PyVal → Except String PyVal
  location_finder : PyVal → PyVal → Except String PyVal
  llm : String → Except String String

/-- `SupervisorAgent.plan_next_action`: the routing decision tree.
Each test is Python truthiness of the corresponding state entry. -/
def plan_next_action (state : WMState) : String :=
  if !pyTruthy state.waste_type then "classify_waste"
  else if !pyTruthy state.user_location then "get_location"
  else if !pyTruthy state.local_regulations then "lookup_regulations"
  else if !pyTruthy state.disposal_locations then "find_locations"
  else "generate_response"

/-- `WorkerAgent.classify_waste`.  On any exception from the tool call, the
JSON parse, or the `result_dict['primary_type']` subscript, the except
branch writes `waste_type = 'household'` and an error message.  The
success prints a `:.2f` format of `result_dict.get('confidence', 0)`
after the three state writes; a non-numeric confidence makes that print
raise, landing in the same except branch with the earlier writes kept. -/
def classify_waste (tool : String → Except String PyVal) (s : WMState) : WMState :=
  match tool s.user_query with
  | .error e =>
    { s with waste_type := .vStr "household",
             error_message := .vStr ("Classification error: " ++ e) }
  | .ok d =>
    match pySubscript d "primary_type" with
    | .error e =>
      { s with waste_type := .vStr "household",
               error_message := .vStr ("Classification error: " ++ e) }
    | .ok pt =>
      match pyGetD d "confidence" (.vNum 0) with
      | .error e =>
        { s with waste_type := .vStr "household",
                 error_message := .vStr ("Classification error: " ++ e) }
      | .ok conf =>
        let s1 := { s with waste_type := pt, waste_classification := d,
                           confidence_score := conf }
        match conf with
        | .vNum _ => s1
        | .vBool _ => s1
        | _ =>
          { s1 with waste_type := .vStr "household",
                    error_message := .vStr ("Classification error: " ++ formatErrMsg) }

/-- The hardcoded fallback location of `WorkerAgent.get_location`. -/
def defaultLocation : PyVal :=
  .vDict [("city", .vStr "New York"), ("state", .vStr "NY"), ("country", .vStr "US")]

/-- `WorkerAgent.get_location`.  The tool is always invoked with the empty
hint string.  A parse result that is not a dict makes the success print
(`result_dict.get('city')`) raise after the state write; the except branch
then overwrites `user_location` with the default, so the net effect of any
failure is the default location plus an error message. -/
def get_location (tool : String → Except String PyVal) (s : WMState) : WMState :=
  match tool "" with
  | .error e =>
    { s with user_location := defaultLocation,
             error_message := .vStr ("Location error: " ++ e) }
  | .ok d =>
    match d with
    | .vDict entries => { s with user_location := .vDict entries }
    | _ =>
      { s with user_location := defaultLocation,
               error_message := .vStr ("Location error: " ++ attrGetMsg) }

/-- The hardcoded fallback regulations of `WorkerAgent.lookup_regulations`. -/
def fallbackRegulations : PyVal :=
  .vDict [("jurisdiction", .vStr "General Guidelines"),
          ("rules", .vStr "Please check with local waste management authorities.")]

/-- `WorkerAgent.lookup_regulations`.  The tool receives the current
location and waste type (the JSON round trip is folded into the oracle).
A non-dict result makes `result_dict.get('jurisdiction', ...)` raise after
the write; the except branch then overwrites with the fallback dict. -/
def lookup_regulations (tool : PyVal → PyVal → Except String PyVal) (s : WMState) : WMState :=
  match tool s.user_location s.waste_type with
  | .error e =>
    { s with local_regulations := fallbackRegulations,
             error_message := .vStr ("Regulation error: " ++ e) }
  | .ok d =>
    match d with
    | .vDict entries => { s with local_regulations := .vDict entries }
    | _ =>
      { s with local_regulations := fallbackRegulations,
               error_message := .vStr ("Regulation error: " ++ attrGetMsg) }

/-- `WorkerAgent.find_locations`.  `facilities = result_dict.get('facilities', [])`
raises on a non-dict result; `len(facilities)` in the success print raises
on an unsized value after the write; every failure lands in the except
branch which writes the empty list plus an error message. -/
def find_locations (tool : PyVal → PyVal → Except String PyVal) (s : WMState) : WMState :=
  match tool s.user_location s.waste_type with
  | .error e =>
    { s with disposal_locations := .vList [],
             error_message := .vStr ("Location finder error: " ++ e) }
  | .ok d =>
    match pyGetD d "facilities" (.vList []) with
    | .error e =>
      { s with disposal_locations := .vList [],
               error_message := .vStr ("Location finder error: " ++ e) }
    | .ok fac =>
      match pyLen fac with
      | .error e =>
        { s with disposal_locations := .vList [],
                 error_message := .vStr ("Location finder error: " ++ e) }
      | .ok _ => { s with disposal_locations := fac }

/-- The facility lines of the prompt context in
`SupervisorAgent.generate_final_response`
(`enumerate(locations[:3], 1)` over the facility dicts). -/
def contextFacilityLines : Nat → List PyVal → Except String String
  | _, [] => .ok ""
  | i, l :: ls => do
    let name ← pyGetD l "name" (.vStr "Unknown")
    let address ← pyGetD l "address" (.vStr "No address")
    let dist ← pyGetD l "distance_km" (.vStr "Unknown")
    let rest ← contextFacilityLines (i + 1) ls
    pure (toString i ++ ". " ++ pyStr name ++ " - " ++ pyStr address ++
          " (" ++ pyStr dist ++ "km)\n" ++ rest)

/-- The per-facility lines of `SupervisorAgent._generate_fallback_response`:
name/address/distance line, then a phone line when `location.get('phone')`
is truthy, then a note line when `location.get('special_instructions')`
is truthy (both re-read with a subscript). -/
def fallbackFacilityLines (i : Nat) (l : PyVal) : Except String (List String) := do
  let name ← pyGetD l "name" (.vStr "Unknown Facility")
  let address ← pyGetD l "address" (.vStr "Address not available")
  let distance ← pyGetD l "distance_km" (.vStr "Unknown")
  let line1 := toString i ++ ". **" ++ pyStr name ++ "** - " ++ pyStr address ++
               " (" ++ pyStr distance ++ "km)"
  let phone ← pyGetD l "phone" .vNone
  let lines1 ←
    if pyTruthy phone then do
      let p ← pySubscript l "phone"
      pure [line1, "   Phone: " ++ pyStr p]
    else pure [line1]
  let si ← pyGetD l "special_instructions" .vNone
  if pyTruthy si then do
    let n ← pySubscript l "special_instructions"
    pure (lines1 ++ ["   Note: " ++ pyStr n])
  else pure lines1

/-- The `enumerate(locations[:3], 1)` loop of
`SupervisorAgent._generate_fallback_response`. -/
def fallbackFacilitiesLoop : Nat → List PyVal → Except String (List String)
  | _, [] => .ok []
  | i, l :: ls => do
    let first ← fallbackFacilityLines i l
    let rest ← fallbackFacilitiesLoop (i + 1) ls
    pure (first ++ rest)

/-- The regulations block of `_generate_fallback_response`
(`if regulations:` rules bullet plus up to three preparation steps),
appended to the parts accumulated so far. -/
def fallbackRegulationsSection (regulations : PyVal) (p1 : List String) :
    Except String (List String) :=
  if pyTruthy regulations then do
    let rules ← pyGetD regulations "rules" (.vStr "No specific rules found")
    let base := p1 ++ ["\n**Local Regulations:**", "• " ++ pyStr rules]
    let prep_steps ← pyGetD regulations "preparation_steps" (.vList [])
    if pyTruthy prep_steps then do
      let steps ← pySlice3 prep_steps
      pure (base ++ ["\n**Preparation Steps:**"] ++
            steps.map (fun st => "• " ++ pyStr st))
    else pure base
  else pure p1

/-- The facilities block of `_generate_fallback_response`
(`if locations:` up to three facility entries, else the boilerplate
contact-local-waste-management guidance), appended to the parts so far. -/
def fallbackFacilitiesSection (locations : PyVal) (p2 : List String) :
    Except String (List String) :=
  if pyTruthy locations then do
    let fac3 ← pySlice3 locations
    let lines ← fallbackFacilitiesLoop 1 fac3
    pure (p2 ++ ["\n**Disposal Locations Near You:**"] ++ lines)
  else
    pure (p2 ++ ["\n**Disposal Options:**",
      "• Contact your local waste management service",
      "• Check with municipal recycling programs",
      "• Search online for local disposal facilities"])

/-- `SupervisorAgent._generate_fallback_response`: the deterministic
non-LLM report (header, classification line, optional regulations and
preparation steps, facilities or boilerplate guidance, fixed next steps),
joined with newlines.  Source name has a leading underscore; the two
conditional blocks of the source are the two section functions above. -/
def generate_fallback_response (s : WMState) : Except String String := do
  let waste_type := s.waste_type
  let location_data := s.user_location
  let regulations := s.local_regulations
  let locations := s.disposal_locations
  let city ← pyGetD location_data "city" (.vStr "your area")
  let state_name ← pyGetD location_data "state" (.vStr "your state")
  let wtTitle ← pyTitleV waste_type
  let p0 := ["## " ++ wtTitle ++ " Disposal Guidance for " ++ pyStr city ++
             ", " ++ pyStr state_name]
  let p1 := p0 ++
    ["\n**Waste Classification:** Your waste has been classified as " ++
     pyStr waste_type ++ "."]
  let p2 ← fallbackRegulationsSection regulations p1
  let p3 ← fallbackFacilitiesSection locations p2
  let p4 := p3 ++ ["\n**Next Steps:**",
    "1. Follow any preparation requirements listed above",
    "2. Contact the facility to confirm they accept your waste type",
    "3. Check facility hours and any fees",
    "4. Transport your waste safely to the disposal location"]
  pure (joinLines p4)

/-- The regulation summary line of the prompt context of
`generate_final_response`. -/
def regulationSummary (regulations : PyVal) : Except String String :=
  if pyTruthy regulations then do
    let r ← pyGetD regulations "rules" (.vStr "No specific regulations found")
    pure (pyStr r)
  else pure "No regulations available"

/-- The facilities tail of the prompt context of `generate_final_response`
(`if locations:` lines for up to three facilities, else the fixed
no-facilities sentence). -/
def contextFacilities (locations : PyVal) : Except String String :=
  if pyTruthy locations then do
    let fac3 ← pySlice3 locations
    contextFacilityLines 1 fac3
  else pure "No specific facilities found in database.\n"

/-- The `try: self.llm(...)` / `except: _generate_fallback_response(state)`
tail of `generate_final_response`. -/
def llmOrFallback (llm : String → Except String String) (s : WMState)
    (context : String) : Except String String :=
  match llm context with
  | .ok content => pure content
  | .error _ => generate_fallback_response s

/-- `SupervisorAgent.generate_final_response`: builds the prompt context
(raising on ill-shaped state, outside any try), calls the LLM, and on any
LLM exception falls back to `_generate_fallback_response`. -/
def generate_final_response (llm : String → Except String String)
    (s : WMState) : Except String String := do
  let waste_type := s.waste_type
  let location_data := s.user_location
  let regulations := s.local_regulations
  let locations := s.disposal_locations
  let city ← pyGetD location_data "city" (.vStr "your area")
  let state_name ← pyGetD location_data "state" (.vStr "your state")
  let nloc ← pyLen locations
  let regSummary ← regulationSummary regulations
  let context0 :=
    "\nUser Query: " ++ s.user_query ++
    "\n\nANALYSIS RESULTS:\n- Waste Type: " ++ pyStr waste_type ++
    "\n- Location: " ++ pyStr city ++ ", " ++ pyStr state_name ++
    "\n- Regulations Available: " ++ (if pyTruthy regulations then "Yes" else "No") ++
    "\n- Facilities Found: " ++ toString nloc ++ " locations" ++
    "\n\nREGULATION SUMMARY:\n" ++ regSummary ++
    "\n\nDISPOSAL FACILITIES:\n"
  let facPart ← contextFacilities locations
  llmOrFallback llm s (context0 ++ facPart)

/-- `WasteManagementWorkflow._generate_response_node`: stores the generated
response into `final_response`; an exception from generation propagates. -/
def generate_response_node (llm : String → Except String String)
    (s : WMState) : Except String WMState :=
  match generate_final_response llm s with
  | .ok t => .ok { s with final_response := .vStr t }
  | .error e => .error e

/-- Dispatch of the conditional edge of `_build_workflow_graph`: the node
named by the supervisor runs on the state.  `plan_next_action` only ever
produces the five stage names; the final branch is `generate_response`. -/
def stepStage (c : Collaborators) (name : String) (s : WMState) : Except String WMState :=
  if name = "classify_waste" then .ok (classify_waste c.waste_classifier s)
  else if name = "get_location" then .ok (get_location c.geolocation s)
  else if name = "lookup_regulations" then .ok (lookup_regulations c.regulation_lookup s)
  else if name = "find_locations" then .ok (find_locations c.location_finder s)
  else generate_response_node c.llm s

/-- Modelled `GraphRecursionError` message raised by LangGraph when the
step budget is exhausted before `END` is reached. -/
def graphRecursionMsg : String :=
  "Recursion limit of 25 reached without hitting a stop condition."

/-- The LangGraph execution loop of the compiled graph: supervisor node
(writes `processing_step`), conditional edge to the selected stage, worker
stages return to the supervisor, `generate_response` goes to `END`.  Fuel
counts supervisor rounds; exhausting it models `GraphRecursionError`. -/
def runGraph (c : Collaborators) : Nat → WMState → Except String WMState
  | 0, _ => .error graphRecursionMsg
  | fuel + 1, s =>
    let next := plan_next_action s
    let s1 := { s with processing_step := .vStr next }
    match stepStage c next s1 with
    | .error e => .error e
    | .ok s2 => if next = "generate_response" then .ok s2 else runGraph c fuel s2

/-- The sequence of stage names executed by `runGraph` from a state
(same recursion, recording the conditional-edge targets in order). -/
def stagesRun (c : Collaborators) : Nat → WMState → List String
  | 0, _ => []
  | fuel + 1, s =>
    let next := plan_next_action s
    let s1 := { s with processing_step := .vStr next }
    match stepStage c next s1 with
    | .error _ => [next]
    | .ok s2 => if next = "generate_response" then [next] else next :: stagesRun c fuel s2

/-- LangGraph's default recursion limit of 25 supersteps, expressed in
supervisor rounds (one round = supervisor superstep + worker superstep). -/
def workflow_recursion_rounds : Nat := 12

/-- The initial state built by `WasteManagementWorkflow.process_query`. -/
def initial_state (user_query : String) (user_location : PyVal) : WMState :=
  { user_query := user_query
    user_location := user_location
    waste_type := .vNone
    waste_classification := .vNone
    local_regulations := .vNone
    disposal_locations := .vNone
    final_response := .vNone
    guidance_steps := .vNone
    error_message := .vNone
    processing_step := .vNone
    confidence_score := .vNone }

/-- The apology response of the failure branch of `process_query`. -/
def apologyMsg : String :=
  "Sorry, I encountered an error processing your request. Please try again or contact local waste management services."

/-- `WasteManagementWorkflow.process_query`: runs the graph inside a
single failure boundary and packages the result dict.  The success dict
and the failure dict have different key sets, exactly as in the source;
wall-clock `processing_time_ms` is modelled as 0. -/
def process_query (c : Collaborators) (user_query : String)
    (user_location : PyVal) : List (String × PyVal) :=
  match runGraph c workflow_recursion_rounds (initial_state user_query user_location) with
  | .ok fs =>
    [("success", .vBool true),
     ("user_query", .vStr user_query),
     ("waste_type", fs.waste_type),
     ("user_location", fs.user_location),
     ("final_response", fs.final_response),
     ("waste_classification", fs.waste_classification),
     ("local_regulations", fs.local_regulations),
     ("disposal_locations", fs.disposal_locations),
     ("confidence_score", fs.confidence_score),
     ("processing_time_ms", .vNum 0),
     ("error_message", fs.error_message)]
  | .error e =>
    [("success", .vBool false),
     ("user_query", .vStr user_query),
     ("error_message", .vStr e),
     ("processing_time_ms", .vNum 0),
     ("final_response", .vStr apologyMsg)]

/-! ### Basic equations and frame lemmas -/

theorem runGraph_succ (c : Collaborators) (n : Nat) (s : WMState) :
    runGraph c (n + 1) s =
      (let next := plan_next_action s
       let s1 := { s with processing_step := .vStr next }
       match stepStage c next s1 with
       | .error e => .error e
       | .ok s2 => if next = "generate_response" then .ok s2 else runGraph c n s2) := rfl

theorem stagesRun_succ (c : Collaborators) (n : Nat) (s : WMState) :
    stagesRun c (n + 1) s =
      (let next := plan_next_action s
       let s1 := { s with processing_step := .vStr next }
       match stepStage c next s1 with
       | .error _ => [next]
       | .ok s2 => if next = "generate_response" then [next] else next :: stagesRun c n s2) := rfl

theorem plan_next_action_cases (s : WMState) :
    plan_next_action s = "classify_waste" ∨ plan_next_action s = "get_location" ∨
    plan_next_action s = "lookup_regulations" ∨ plan_next_action s = "find_locations" ∨
    plan_next_action s = "generate_response" := by
  unfold plan_next_action
  split_ifs <;> simp

theorem classify_waste_frame (tool : String → Except String PyVal) (s : WMState) :
    (classify_waste tool s).user_query = s.user_query ∧
    (classify_waste tool s).user_location = s.user_location ∧
    (classify_waste tool s).local_regulations = s.local_regulations ∧
    (classify_waste tool s).disposal_locations = s.disposal_locations ∧
    (classify_waste tool s).final_response = s.final_response := by
  unfold classify_waste
  repeat' split
  all_goals simp

theorem get_location_frame (tool : String → Except String PyVal) (s : WMState) :
    (get_location tool s).user_query = s.user_query ∧
    (get_location tool s).waste_type = s.waste_type ∧
    (get_location tool s).local_regulations = s.local_regulations ∧
    (get_location tool s).disposal_locations = s.disposal_locations ∧
    (get_location tool s).final_response = s.final_response := by
  unfold get_location
  repeat' split
  all_goals simp

theorem lookup_regulations_frame (tool : PyVal → PyVal → Except String PyVal) (s : WMState) :
    (lookup_regulations tool s).user_query = s.user_query ∧
    (lookup_regulations tool s).waste_type = s.waste_type ∧
    (lookup_regulations tool s).user_location = s.user_location ∧
    (lookup_regulations tool s).disposal_locations = s.disposal_locations ∧
    (lookup_regulations tool s).final_response = s.final_response := by
  unfold lookup_regulations
  repeat' split
  all_goals simp

theorem find_locations_frame (tool : PyVal → PyVal → Except String PyVal) (s : WMState) :
    (find_locations tool s).user_query = s.user_query ∧
    (find_locations tool s).waste_type = s.waste_type ∧
    (find_locations tool s).user_location = s.user_location ∧
    (find_locations tool s).local_regulations = s.local_regulations ∧
    (find_locations tool s).final_response = s.final_response := by
  unfold find_locations
  repeat' split
  all_goals simp

theorem generate_response_node_ok (llm : String → Except String String) (s t : WMState)
    (h : generate_response_node llm s = .ok t) :
    ∃ str, generate_final_response llm s = .ok str ∧
      t = { s with final_response := .vStr str } := by
  unfold generate_response_node at h
  split at h
  · next str heq => exact ⟨str, heq, by injection h with h2; exact h2.symm⟩
  · exact absurd h (by simp)

/-! ### Routing lemmas -/

theorem plan_next_action_ne_done (s : WMState) : plan_next_action s ≠ "done" := by
  unfold plan_next_action
  split_ifs <;> simp

theorem plan_next_action_ne_end (s : WMState) : plan_next_action s ≠ "end" := by
  unfold plan_next_action
  split_ifs <;> simp

theorem plan_next_action_ne_get_location (s : WMState)
    (h : pyTruthy s.user_location = true) : plan_next_action s ≠ "get_location" := by
  unfold plan_next_action
  rw [h]
  split_ifs <;> simp_all

/-- The written field of each worker is written to a non-`None` value. -/
theorem pyLen_ok_ne_none (v : PyVal) (n : Nat) (h : pyLen v = .ok n) : v ≠ .vNone := by
  intro hv
  rw [hv] at h
  exact absurd h (by simp [pyLen])

/-- Interface shape of the waste classifier collaborator (spec §6): a
successful classification carries a string `primary_type`. -/
def ClassifierOk (tool : String → Except String PyVal) : Prop :=
  ∀ q d v, tool q = .ok d → pySubscript d "primary_type" = .ok v → ∃ str, v = .vStr str

theorem classify_waste_sets (tool : String → Except String PyVal)
    (hf : ClassifierOk tool) (s : WMState) :
    ∃ str, (classify_waste tool s).waste_type = .vStr str := by
  cases htool : tool s.user_query with
  | error e => exact ⟨"household", by simp [classify_waste, htool]⟩
  | ok d =>
    cases hsub : pySubscript d "primary_type" with
    | error e => exact ⟨"household", by simp [classify_waste, htool, hsub]⟩
    | ok pt =>
      obtain ⟨str, hstr⟩ := hf s.user_query d pt htool hsub
      cases hconf : pyGetD d "confidence" (.vNum 0) with
      | error e => exact ⟨"household", by simp [classify_waste, htool, hsub, hconf]⟩
      | ok conf =>
        cases conf with
        | vNum q => exact ⟨str, by simp [classify_waste, htool, hsub, hconf, hstr]⟩
        | vBool b => exact ⟨str, by simp [classify_waste, htool, hsub, hconf, hstr]⟩
        | vNone => exact ⟨"household", by simp [classify_waste, htool, hsub, hconf]⟩
        | vStr t => exact ⟨"household", by simp [classify_waste, htool, hsub, hconf]⟩
        | vList xs => exact ⟨"household", by simp [classify_waste, htool, hsub, hconf]⟩
        | vDict dd => exact ⟨"household", by simp [classify_waste, htool, hsub, hconf]⟩

theorem get_location_sets (tool : String → Except String PyVal) (s : WMState) :
    ∃ d, (get_location tool s).user_location = .vDict d := by
  unfold get_location
  cases tool "" with
  | error e => exact ⟨_, rfl⟩
  | ok v =>
    cases v with
    | vDict entries => exact ⟨entries, rfl⟩
    | vNone => exact ⟨_, rfl⟩
    | vBool b => exact ⟨_, rfl⟩
    | vNum q => exact ⟨_, rfl⟩
    | vStr t => exact ⟨_, rfl⟩
    | vList xs => exact ⟨_, rfl⟩

theorem lookup_regulations_sets (tool : PyVal → PyVal → Except String PyVal) (s : WMState) :
    ∃ d, (lookup_regulations tool s).local_regulations = .vDict d := by
  unfold lookup_regulations
  cases tool s.user_location s.waste_type with
  | error e => exact ⟨_, rfl⟩
  | ok v =>
    cases v with
    | vDict entries => exact ⟨entries, rfl⟩
    | vNone => exact ⟨_, rfl⟩
    | vBool b => exact ⟨_, rfl⟩
    | vNum q => exact ⟨_, rfl⟩
    | vStr t => exact ⟨_, rfl⟩
    | vList xs => exact ⟨_, rfl⟩

theorem find_locations_sets (tool : PyVal → PyVal → Except String PyVal) (s : WMState) :
    (find_locations tool s).disposal_locations ≠ .vNone := by
  cases htool : tool s.user_location s.waste_type with
  | error e => simp [find_locations, htool]
  | ok d =>
    cases hget : pyGetD d "facilities" (.vList []) with
    | error e => simp [find_locations, htool, hget]
    | ok fac =>
      cases hlen : pyLen fac with
      | error e => simp [find_locations, htool, hget, hlen]
      | ok n =>
        simpa [find_locations, htool, hget, hlen] using pyLen_ok_ne_none fac n hlen

/-! ### Dispatch equations for the conditional edge -/

theorem stepStage_classify (c : Collaborators) (s : WMState) :
    stepStage c "classify_waste" s = .ok (classify_waste c.waste_classifier s) := rfl

theorem stepStage_get_location (c : Collaborators) (s : WMState) :
    stepStage c "get_location" s = .ok (get_location c.geolocation s) := rfl

theorem stepStage_lookup (c : Collaborators) (s : WMState) :
    stepStage c "lookup_regulations" s = .ok (lookup_regulations c.regulation_lookup s) := rfl

theorem stepStage_find (c : Collaborators) (s : WMState) :
    stepStage c "find_locations" s = .ok (find_locations c.location_finder s) := rfl

theorem stepStage_generate (c : Collaborators) (s : WMState) :
    stepStage c "generate_response" s = generate_response_node c.llm s := rfl

/-! ### Monotonic field-setting -/

/-- Once-set stays set between two states (spec §8 monotonic field-setting),
for the five fields named by the specification. -/
def FieldsMono (s t : WMState) : Prop :=
  (s.waste_type ≠ .vNone → t.waste_type ≠ .vNone) ∧
  (s.user_location ≠ .vNone → t.user_location ≠ .vNone) ∧
  (s.local_regulations ≠ .vNone → t.local_regulations ≠ .vNone) ∧
  (s.disposal_locations ≠ .vNone → t.disposal_locations ≠ .vNone) ∧
  (s.final_response ≠ .vNone → t.final_response ≠ .vNone)

theorem FieldsMono_trans (s t u : WMState) (h1 : FieldsMono s t) (h2 : FieldsMono t u) :
    FieldsMono s u := by
  obtain ⟨a1, b1, c1, d1, e1⟩ := h1
  obtain ⟨a2, b2, c2, d2, e2⟩ := h2
  exact ⟨fun h => a2 (a1 h), fun h => b2 (b1 h), fun h => c2 (c1 h),
         fun h => d2 (d1 h), fun h => e2 (e1 h)⟩

theorem classify_waste_mono (tool : String → Except String PyVal)
    (hf : ClassifierOk tool) (s : WMState) : FieldsMono s (classify_waste tool s) := by
  obtain ⟨str, hstr⟩ := classify_waste_sets tool hf s
  obtain ⟨_, h2, h3, h4, h5⟩ := classify_waste_frame tool s
  exact ⟨fun _ => by rw [hstr]; simp, fun h => by rwa [h2], fun h => by rwa [h3],
         fun h => by rwa [h4], fun h => by rwa [h5]⟩

theorem get_location_mono (tool : String → Except String PyVal) (s : WMState) :
    FieldsMono s (get_location tool s) := by
  obtain ⟨d, hd⟩ := get_location_sets tool s
  obtain ⟨_, h2, h3, h4, h5⟩ := get_location_frame tool s
  exact ⟨fun h => by rwa [h2], fun _ => by rw [hd]; simp, fun h => by rwa [h3],
         fun h => by rwa [h4], fun h => by rwa [h5]⟩

theorem lookup_regulations_mono (tool : PyVal → PyVal → Except String PyVal) (s : WMState) :
    FieldsMono s (lookup_regulations tool s) := by
  obtain ⟨d, hd⟩ := lookup_regulations_sets tool s
  obtain ⟨_, h2, h3, h4, h5⟩ := lookup_regulations_frame tool s
  exact ⟨fun h => by rwa [h2], fun h => by rwa [h3], fun _ => by rw [hd]; simp,
         fun h => by rwa [h4], fun h => by rwa [h5]⟩

theorem find_locations_mono (tool : PyVal → PyVal → Except String PyVal) (s : WMState) :
    FieldsMono s (find_locations tool s) := by
  have hset := find_locations_sets tool s
  obtain ⟨_, h2, h3, h4, h5⟩ := find_locations_frame tool s
  exact ⟨fun h => by rwa [h2], fun h => by rwa [h3], fun h => by rwa [h4],
         fun _ => hset, fun h => by rwa [h5]⟩

theorem generate_response_node_mono (llm : String → Except String String)
    (s t : WMState) (h : generate_response_node llm s = .ok t) : FieldsMono s t := by
  obtain ⟨str, _, ht⟩ := generate_response_node_ok llm s t h
  subst ht
  exact ⟨fun h => h, fun h => h, fun h => h, fun h => h, fun _ => by simp⟩

/-- Writing `processing_step` (the supervisor node) does not affect the
five tracked fields, so monotonicity transfers across that write. -/
theorem FieldsMono_of_processing (s : WMState) (v : PyVal) (t : WMState)
    (h : FieldsMono { s with processing_step := v } t) : FieldsMono s t := h

/-- One supervisor+worker round preserves once-set fields, for every stage
name the router can produce. -/
theorem stepStage_mono (c : Collaborators) (hf : ClassifierOk c.waste_classifier)
    (s : WMState) (s2 : WMState)
    (h : stepStage c (plan_next_action s) { s with processing_step := .vStr (plan_next_action s) } = .ok s2) :
    FieldsMono s s2 := by
  rcases plan_next_action_cases s with hn | hn | hn | hn | hn <;> rw [hn] at h
  · rw [stepStage_classify] at h
    injection h with h
    rw [← h]
    exact FieldsMono_of_processing s _ _ (classify_waste_mono c.waste_classifier hf _)
  · rw [stepStage_get_location] at h
    injection h with h
    rw [← h]
    exact FieldsMono_of_processing s _ _ (get_location_mono c.geolocation _)
  · rw [stepStage_lookup] at h
    injection h with h
    rw [← h]
    exact FieldsMono_of_processing s _ _ (lookup_regulations_mono c.regulation_lookup _)
  · rw [stepStage_find] at h
    injection h with h
    rw [← h]
    exact FieldsMono_of_processing s _ _ (find_locations_mono c.location_finder _)
  · rw [stepStage_generate] at h
    exact FieldsMono_of_processing s _ _ (generate_response_node_mono c.llm _ s2 h)

/-- Along every successful graph run, once-set fields stay set. -/
theorem runGraph_mono (c : Collaborators) (hf : ClassifierOk c.waste_classifier) :
    ∀ fuel s t, runGraph c fuel s = .ok t → FieldsMono s t := by
  intro fuel
  induction fuel with
  | zero => intro s t h; exact absurd h (by simp [runGraph])
  | succ n ih =>
    intro s t h
    rw [runGraph_succ] at h
    simp only at h
    cases hstep : stepStage c (plan_next_action s) { s with processing_step := .vStr (plan_next_action s) } with
    | error e => rw [hstep] at h; exact absurd h (by simp)
    | ok s2 =>
      rw [hstep] at h
      simp only at h
      have hmono := stepStage_mono c hf s s2 hstep
      by_cases hgen : plan_next_action s = "generate_response"
      · rw [if_pos hgen] at h
        injection h with h
        rw [← h]
        exact hmono
      · rw [if_neg hgen] at h
        exact FieldsMono_trans s s2 t hmono (ih s2 t h)

/-! ### The empty-facilities routing trap -/

/-- A state in which the first three fields are truthy but the facility
list is the empty list.  By Python truthiness the router treats the empty
list as unset. -/
def TrapState (s : WMState) : Prop :=
  pyTruthy s.waste_type = true ∧ pyTruthy s.user_location = true ∧
  pyTruthy s.local_regulations = true ∧ s.disposal_locations = .vList []

theorem trap_plan (s : WMState) (h : TrapState s) :
    plan_next_action s = "find_locations" := by
  obtain ⟨h1, h2, h3, h4⟩ := h
  unfold plan_next_action
  rw [h1, h2, h3, h4]
  simp [pyTruthy]

/-- One unfolding of `runGraph` when the selected stage succeeds. -/
theorem runGraph_step_ok (c : Collaborators) (n : Nat) (s s2 : WMState)
    (h : stepStage c (plan_next_action s) { s with processing_step := .vStr (plan_next_action s) } = .ok s2) :
    runGraph c (n + 1) s =
      if plan_next_action s = "generate_response" then .ok s2 else runGraph c n s2 := by
  rw [runGraph_succ]
  simp only [h]

/-- One unfolding of `runGraph` when the selected stage raises. -/
theorem runGraph_step_error (c : Collaborators) (n : Nat) (s : WMState) (e : String)
    (h : stepStage c (plan_next_action s) { s with processing_step := .vStr (plan_next_action s) } = .error e) :
    runGraph c (n + 1) s = .error e := by
  rw [runGraph_succ]
  simp only [h]

/-- When the facility finder fails on every call, a trap state can never
leave the `find_locations` loop: every fuel budget ends in the modelled
`GraphRecursionError`. -/
theorem trap_loop (c : Collaborators) (m : String)
    (hfind : ∀ l w, c.location_finder l w = .error m) :
    ∀ fuel s, TrapState s → runGraph c fuel s = .error graphRecursionMsg := by
  intro fuel
  induction fuel with
  | zero => intro s _; rfl
  | succ n ih =>
    intro s hs
    have hplan := trap_plan s hs
    have hbody : find_locations c.location_finder
        { s with processing_step := .vStr "find_locations" } =
          { s with processing_step := .vStr "find_locations",
                   disposal_locations := .vList [],
                   error_message := .vStr ("Location finder error: " ++ m) } := by
      unfold find_locations
      rw [hfind]
    have hstep : stepStage c (plan_next_action s)
        { s with processing_step := .vStr (plan_next_action s) } =
          .ok { s with processing_step := .vStr "find_locations",
                       disposal_locations := .vList [],
                       error_message := .vStr ("Location finder error: " ++ m) } := by
      rw [hplan, stepStage_find, hbody]
    have htrap2 : TrapState
        { s with processing_step := .vStr "find_locations",
                 disposal_locations := .vList [],
                 error_message := .vStr ("Location finder error: " ++ m) } :=
      ⟨hs.1, hs.2.1, hs.2.2.1, rfl⟩
    rw [runGraph_step_ok c n s _ hstep, hplan, if_neg (by decide)]
    exact ih _ htrap2

/-! ### Every successful run ends with a string response -/

theorem runGraph_ok_final (c : Collaborators) :
    ∀ fuel s t, runGraph c fuel s = .ok t → ∃ str, t.final_response = .vStr str := by
  intro fuel
  induction fuel with
  | zero => intro s t h; exact absurd h (by simp [runGraph])
  | succ n ih =>
    intro s t h
    rw [runGraph_succ] at h
    simp only at h
    by_cases hgen : plan_next_action s = "generate_response"
    · rw [hgen, stepStage_generate] at h
      cases hnode : generate_response_node c.llm
          { s with processing_step := .vStr (plan_next_action s) } with
      | error e =>
        rw [hgen] at hnode
        rw [hnode] at h
        exact absurd h (by simp)
      | ok s2 =>
        rw [hgen] at hnode
        rw [hnode] at h
        simp only [if_pos rfl] at h
        injection h with h
        obtain ⟨str, _, hs2⟩ := generate_response_node_ok c.llm _ s2 hnode
        exact ⟨str, by rw [← h, hs2]⟩
    · cases hstep : stepStage c (plan_next_action s)
          { s with processing_step := .vStr (plan_next_action s) } with
      | error e => rw [hstep] at h; exact absurd h (by simp)
      | ok s2 =>
        rw [hstep] at h
        simp only [if_neg hgen] at h
        exact ih s2 t h

/-! ### A supplied truthy location is never revisited -/

theorem stepStage_keeps_location (c : Collaborators) (s s2 : WMState)
    (hn : plan_next_action s ≠ "get_location")
    (h : stepStage c (plan_next_action s) { s with processing_step := .vStr (plan_next_action s) } = .ok s2) :
    s2.user_location = s.user_location := by
  rcases plan_next_action_cases s with hc | hc | hc | hc | hc <;> rw [hc] at h
  · rw [stepStage_classify] at h
    injection h with h
    rw [← h]
    exact (classify_waste_frame c.waste_classifier _).2.1
  · exact absurd hc hn
  · rw [stepStage_lookup] at h
    injection h with h
    rw [← h]
    exact (lookup_regulations_frame c.regulation_lookup _).2.2.1
  · rw [stepStage_find] at h
    injection h with h
    rw [← h]
    exact (find_locations_frame c.location_finder _).2.2.1
  · rw [stepStage_generate] at h
    obtain ⟨str, _, hs2⟩ := generate_response_node_ok c.llm _ s2 h
    rw [hs2]

theorem run_keeps_location (c : Collaborators) (loc : PyVal) (hl : pyTruthy loc = true) :
    ∀ fuel s, s.user_location = loc →
      ("get_location" ∉ stagesRun c fuel s ∧
       ∀ t, runGraph c fuel s = .ok t → t.user_location = loc) := by
  intro fuel
  induction fuel with
  | zero =>
    intro s _
    constructor
    · simp [stagesRun]
    · intro t h; exact absurd h (by simp [runGraph])
  | succ n ih =>
    intro s hs
    have hne : plan_next_action s ≠ "get_location" :=
      plan_next_action_ne_get_location s (by rw [hs]; exact hl)
    cases hstep : stepStage c (plan_next_action s)
        { s with processing_step := .vStr (plan_next_action s) } with
    | error e =>
      constructor
      · rw [stagesRun_succ]
        simp only [hstep]
        simpa using fun h => hne h.symm
      · intro t h
        rw [runGraph_succ] at h
        simp only [hstep] at h
        exact absurd h (by simp)
    | ok s2 =>
      have hs2 : s2.user_location = loc := by
        rw [stepStage_keeps_location c s s2 hne hstep, hs]
      obtain ⟨ihm, ihr⟩ := ih s2 hs2
      by_cases hgen : plan_next_action s = "generate_response"
      · constructor
        · rw [stagesRun_succ]
          simp only [hstep, if_pos hgen]
          simpa using fun h => hne h.symm
        · intro t h
          rw [runGraph_succ] at h
          simp only [hstep, if_pos hgen] at h
          injection h with h
          rw [← h]
          exact hs2
      · constructor
        · rw [stagesRun_succ]
          simp only [hstep, if_neg hgen]
          intro hmem
          rcases List.mem_cons.mp hmem with h | h
          · exact hne h.symm
          · exact ihm h
        · intro t h
          rw [runGraph_succ] at h
          simp only [hstep, if_neg hgen] at h
          exact ihr t h

/-- One round that does not select `generate_response` continues the loop. -/
theorem runGraph_step_cont (c : Collaborators) (n : Nat) (s s2 : WMState)
    (hplan : plan_next_action s ≠ "generate_response")
    (h : stepStage c (plan_next_action s) { s with processing_step := .vStr (plan_next_action s) } = .ok s2) :
    runGraph c (n + 1) s = runGraph c n s2 := by
  rw [runGraph_step_ok c n s s2 h, if_neg hplan]

/-- State after the first round (classification) in the total-finder-failure
scenario, for a classifier that always returns `primary_type = wt`. -/
def c2state1 (q wt : String) : WMState :=
  { initial_state q .vNone with
      processing_step := .vStr "classify_waste",
      waste_type := .vStr wt,
      waste_classification := .vDict [("primary_type", .vStr wt)],
      confidence_score := .vNum 0 }

/-- State after the second round (location). -/
def c2state2 (q wt : String) (ld : List (String × PyVal)) : WMState :=
  { c2state1 q wt with
      processing_step := .vStr "get_location",
      user_location := .vDict ld }

/-- State after the third round (regulations). -/
def c2state3 (q wt : String) (ld rd : List (String × PyVal)) : WMState :=
  { c2state2 q wt ld with
      processing_step := .vStr "lookup_regulations",
      local_regulations := .vDict rd }

/-- State after the fourth round (failed facility search): a trap state. -/
def c2state4 (q wt : String) (ld rd : List (String × PyVal)) (m : String) : WMState :=
  { c2state3 q wt ld rd with
      processing_step := .vStr "find_locations",
      disposal_locations := .vList [],
      error_message := .vStr ("Location finder error: " ++ m) }

theorem c2_plan1 (q wt : String) (hwt : pyTruthy (.vStr wt) = true) :
    plan_next_action (c2state1 q wt) = "get_location" := by
  have h1 : wt.isEmpty = false := by simpa [pyTruthy] using hwt
  simp [plan_next_action, c2state1, initial_state, pyTruthy, h1]

theorem c2_plan2 (q wt : String) (ld : List (String × PyVal))
    (hwt : pyTruthy (.vStr wt) = true) (hld : pyTruthy (.vDict ld) = true) :
    plan_next_action (c2state2 q wt ld) = "lookup_regulations" := by
  have h1 : wt.isEmpty = false := by simpa [pyTruthy] using hwt
  have h2 : ld.isEmpty = false := by simpa [pyTruthy] using hld
  simp [plan_next_action, c2state2, c2state1, initial_state, pyTruthy, h1, h2]

theorem c2_plan3 (q wt : String) (ld rd : List (String × PyVal))
    (hwt : pyTruthy (.vStr wt) = true) (hld : pyTruthy (.vDict ld) = true)
    (hrd : pyTruthy (.vDict rd) = true) :
    plan_next_action (c2state3 q wt ld rd) = "find_locations" := by
  have h1 : wt.isEmpty = false := by simpa [pyTruthy] using hwt
  have h2 : ld.isEmpty = false := by simpa [pyTruthy] using hld
  have h3 : rd.isEmpty = false := by simpa [pyTruthy] using hrd
  simp [plan_next_action, c2state3, c2state2, c2state1, initial_state, pyTruthy, h1, h2, h3]

theorem c2_run (c : Collaborators) (q wt : String) (ld rd : List (String × PyVal)) (m : String)
    (hwt : pyTruthy (.vStr wt) = true) (hld : pyTruthy (.vDict ld) = true)
    (hrd : pyTruthy (.vDict rd) = true)
    (hcl : ∀ t, c.waste_classifier t = .ok (.vDict [("primary_type", .vStr wt)]))
    (hgeo : ∀ h, c.geolocation h = .ok (.vDict ld))
    (hreg : ∀ l w, c.regulation_lookup l w = .ok (.vDict rd))
    (hfind : ∀ l w, c.location_finder l w = .error m) :
    runGraph c workflow_recursion_rounds (initial_state q .vNone) = .error graphRecursionMsg := by
  have hclassify : ∀ s : WMState, classify_waste c.waste_classifier s =
      { s with waste_type := .vStr wt,
               waste_classification := .vDict [("primary_type", .vStr wt)],
               confidence_score := .vNum 0 } := by
    intro s
    unfold classify_waste
    rw [hcl]
    simp [pySubscript, pyGetD, dictLookup]
  have hget : ∀ s : WMState, get_location c.geolocation s =
      { s with user_location := .vDict ld } := by
    intro s
    unfold get_location
    rw [hgeo]
  have hlookup : ∀ s : WMState, lookup_regulations c.regulation_lookup s =
      { s with local_regulations := .vDict rd } := by
    intro s
    unfold lookup_regulations
    rw [hreg]
  have hfindeq : ∀ s : WMState, find_locations c.location_finder s =
      { s with disposal_locations := .vList [],
               error_message := .vStr ("Location finder error: " ++ m) } := by
    intro s
    unfold find_locations
    rw [hfind]
  have hp0 : plan_next_action (initial_state q .vNone) = "classify_waste" := rfl
  have e1 : runGraph c (11 + 1) (initial_state q .vNone) = runGraph c 11 (c2state1 q wt) := by
    refine runGraph_step_cont c 11 _ _ (by rw [hp0]; decide) ?_
    rw [hp0, stepStage_classify, hclassify]
    rfl
  have e2 : runGraph c (10 + 1) (c2state1 q wt) = runGraph c 10 (c2state2 q wt ld) := by
    refine runGraph_step_cont c 10 _ _ (by rw [c2_plan1 q wt hwt]; decide) ?_
    rw [c2_plan1 q wt hwt, stepStage_get_location, hget]
    rfl
  have e3 : runGraph c (9 + 1) (c2state2 q wt ld) = runGraph c 9 (c2state3 q wt ld rd) := by
    refine runGraph_step_cont c 9 _ _ (by rw [c2_plan2 q wt ld hwt hld]; decide) ?_
    rw [c2_plan2 q wt ld hwt hld, stepStage_lookup, hlookup]
    rfl
  have e4 : runGraph c (8 + 1) (c2state3 q wt ld rd) = runGraph c 8 (c2state4 q wt ld rd m) := by
    refine runGraph_step_cont c 8 _ _ (by rw [c2_plan3 q wt ld rd hwt hld hrd]; decide) ?_
    rw [c2_plan3 q wt ld rd hwt hld hrd, stepStage_find, hfindeq]
    rfl
  have htrap : TrapState (c2state4 q wt ld rd m) := ⟨hwt, hld, hrd, rfl⟩
  calc runGraph c workflow_recursion_rounds (initial_state q .vNone)
      = runGraph c 11 (c2state1 q wt) := e1
    _ = runGraph c 10 (c2state2 q wt ld) := e2
    _ = runGraph c 9 (c2state3 q wt ld rd) := e3
    _ = runGraph c 8 (c2state4 q wt ld rd m) := e4
    _ = .error graphRecursionMsg := trap_loop c m hfind 8 _ htrap

/-! ### Shape conditions under which response generation cannot raise -/

/-- A facility list value of the shape the facility-finder interface
documents: a list of facility dicts. -/
def DictListOk (v : PyVal) : Prop :=
  ∃ xs, v = .vList xs ∧ ∀ x ∈ xs, ∃ d, x = .vDict d

/-- A regulations value of the shape the regulation interface documents:
either falsy (skipped by the renderer) or a dict whose
`preparation_steps` entry, when truthy, is sliceable. -/
def RegsOk (v : PyVal) : Prop :=
  pyTruthy v = false ∨
  ∃ d, v = .vDict d ∧
    (pyTruthy ((dictLookup d "preparation_steps").getD (.vList [])) = false ∨
     (∃ l, (dictLookup d "preparation_steps").getD (.vList []) = .vList l) ∨
     (∃ str, (dictLookup d "preparation_steps").getD (.vList []) = .vStr str))

theorem pySubscript_of_getD_truthy (d : List (String × PyVal)) (k : String)
    (htr : pyTruthy ((dictLookup d k).getD .vNone) = true) :
    pySubscript (.vDict d) k = .ok ((dictLookup d k).getD .vNone) := by
  cases hd : dictLookup d k with
  | none => rw [hd] at htr; simp [pyTruthy] at htr
  | some w => simp [pySubscript, hd]

/-- Whether a modelled Python computation completed without an exception. -/
def exceptOk {α : Type} : Except String α → Bool
  | .ok _ => true
  | .error _ => false

theorem exceptOk_exists {α : Type} (x : Except String α) (h : exceptOk x = true) :
    ∃ a, x = .ok a := by
  cases x with
  | ok a => exact ⟨a, rfl⟩
  | error e => simp [exceptOk] at h

theorem exceptOk_ok {α : Type} (a : α) : exceptOk (Except.ok a : Except String α) = true := rfl

theorem exceptOk_ite_ok {α : Type} (c : Prop) [Decidable c] (a b : α) :
    exceptOk (if c then (Except.ok a : Except String α) else .ok b) = true := by
  split <;> rfl

theorem fallbackFacilityLines_ok (i : Nat) (d : List (String × PyVal)) :
    ∃ out, fallbackFacilityLines i (.vDict d) = .ok out := by
  apply exceptOk_exists
  unfold fallbackFacilityLines
  by_cases hp : pyTruthy ((dictLookup d "phone").getD .vNone) = true
  · by_cases hsi : pyTruthy ((dictLookup d "special_instructions").getD .vNone) = true
    · simp [pyGetD, bind, Except.bind, pure, Except.pure, hp, hsi, exceptOk_ok, exceptOk_ite_ok,
        pySubscript_of_getD_truthy d "phone" hp,
        pySubscript_of_getD_truthy d "special_instructions" hsi]
    · rw [Bool.not_eq_true] at hsi
      simp [pyGetD, bind, Except.bind, pure, Except.pure, hp, hsi, exceptOk_ok, exceptOk_ite_ok,
        pySubscript_of_getD_truthy d "phone" hp]
  · rw [Bool.not_eq_true] at hp
    by_cases hsi : pyTruthy ((dictLookup d "special_instructions").getD .vNone) = true
    · simp [pyGetD, bind, Except.bind, pure, Except.pure, hp, hsi, exceptOk_ok, exceptOk_ite_ok,
        pySubscript_of_getD_truthy d "special_instructions" hsi]
    · rw [Bool.not_eq_true] at hsi
      simp [pyGetD, bind, Except.bind, pure, Except.pure, hp, hsi, exceptOk_ok, exceptOk_ite_ok]

theorem fallbackFacilitiesLoop_ok (xs : List PyVal) (h : ∀ x ∈ xs, ∃ d, x = .vDict d) :
    ∀ i, ∃ out, fallbackFacilitiesLoop i xs = .ok out := by
  induction xs with
  | nil => intro i; exact ⟨[], rfl⟩
  | cons x rest ih =>
    intro i
    obtain ⟨d, hd⟩ := h x (List.mem_cons_self x rest)
    obtain ⟨out1, hout1⟩ := fallbackFacilityLines_ok i d
    obtain ⟨out2, hout2⟩ := ih (fun y hy => h y (List.mem_cons_of_mem x hy)) (i + 1)
    refine ⟨out1 ++ out2, ?_⟩
    unfold fallbackFacilitiesLoop
    rw [hd, hout1, hout2]
    rfl

theorem contextFacilityLines_ok (xs : List PyVal) (h : ∀ x ∈ xs, ∃ d, x = .vDict d) :
    ∀ i, ∃ out, contextFacilityLines i xs = .ok out := by
  induction xs with
  | nil => intro i; exact ⟨"", rfl⟩
  | cons x rest ih =>
    intro i
    obtain ⟨d, hd⟩ := h x (List.mem_cons_self x rest)
    obtain ⟨out2, hout2⟩ := ih (fun y hy => h y (List.mem_cons_of_mem x hy)) (i + 1)
    apply exceptOk_exists
    unfold contextFacilityLines
    rw [hd, hout2]
    simp [pyGetD, bind, Except.bind, pure, Except.pure, exceptOk_ok, exceptOk_ite_ok]

/-! ### The sections of the synthesizer succeed on well-shaped state -/

theorem except_bind_ok_of {α β : Type} (x : Except String α) (f : α → Except String β)
    (hx : ∃ a, x = .ok a) (hf : ∀ a, x = .ok a → ∃ b, f a = .ok b) :
    ∃ b, (x >>= f) = .ok b := by
  obtain ⟨a, ha⟩ := hx
  obtain ⟨b, hb⟩ := hf a ha
  exact ⟨b, by rw [ha]; simpa [bind, Except.bind] using hb⟩

theorem except_bind_inv {α β : Type} (x : Except String α) (f : α → Except String β) (b : β)
    (h : (x >>= f) = .ok b) : ∃ a, x = .ok a ∧ f a = .ok b := by
  cases x with
  | ok a => exact ⟨a, rfl, by simpa [bind, Except.bind] using h⟩
  | error e => simp [bind, Except.bind] at h

theorem fallbackRegulationsSection_okE (v : PyVal) (hr : RegsOk v) (p1 : List String) :
    ∃ out, fallbackRegulationsSection v p1 = .ok out := by
  apply exceptOk_exists
  unfold fallbackRegulationsSection
  rcases hr with hfalse | ⟨rd, hrd, hprep⟩
  · simp [hfalse, pure, Except.pure, exceptOk_ok]
  · rw [hrd]
    by_cases hregs : pyTruthy (.vDict rd) = true
    · rcases hprep with hpf | ⟨pl, hpl⟩ | ⟨pstr, hpstr⟩
      · simp [pyGetD, pySlice3, bind, Except.bind, pure, Except.pure, hregs, hpf,
          exceptOk_ok, exceptOk_ite_ok]
      · simp [pyGetD, pySlice3, bind, Except.bind, pure, Except.pure, hregs, hpl,
          exceptOk_ok, exceptOk_ite_ok]
      · simp [pyGetD, pySlice3, bind, Except.bind, pure, Except.pure, hregs, hpstr,
          exceptOk_ok, exceptOk_ite_ok]
    · rw [Bool.not_eq_true] at hregs
      simp [hregs, pure, Except.pure, exceptOk_ok]

theorem fallbackFacilitiesSection_okE (v : PyVal) (hf : DictListOk v) (p2 : List String) :
    ∃ out, fallbackFacilitiesSection v p2 = .ok out := by
  apply exceptOk_exists
  obtain ⟨xs, hxs, hdicts⟩ := hf
  obtain ⟨outF, houtF⟩ :=
    fallbackFacilitiesLoop_ok (xs.take 3) (fun x hx => hdicts x (List.take_subset 3 xs hx)) 1
  unfold fallbackFacilitiesSection
  rw [hxs]
  by_cases hloc : pyTruthy (.vList xs) = true
  · simp [pySlice3, bind, Except.bind, pure, Except.pure, hloc, houtF, exceptOk_ok]
  · rw [Bool.not_eq_true] at hloc
    simp [hloc, pure, Except.pure, exceptOk_ok]

theorem regulationSummary_okE (v : PyVal) (hr : RegsOk v) :
    ∃ out, regulationSummary v = .ok out := by
  apply exceptOk_exists
  unfold regulationSummary
  rcases hr with hfalse | ⟨rd, hrd, _⟩
  · simp [hfalse, pure, Except.pure, exceptOk_ok]
  · rw [hrd]
    by_cases hregs : pyTruthy (.vDict rd) = true
    · simp [pyGetD, bind, Except.bind, pure, Except.pure, hregs, exceptOk_ok]
    · rw [Bool.not_eq_true] at hregs
      simp [hregs, pure, Except.pure, exceptOk_ok]

theorem contextFacilities_okE (v : PyVal) (hf : DictListOk v) :
    ∃ out, contextFacilities v = .ok out := by
  obtain ⟨xs, hxs, hdicts⟩ := hf
  obtain ⟨outF, houtF⟩ :=
    contextFacilityLines_ok (xs.take 3) (fun x hx => hdicts x (List.take_subset 3 xs hx)) 1
  unfold contextFacilities
  rw [hxs]
  by_cases hloc : pyTruthy (.vList xs) = true
  · refine ⟨outF, ?_⟩
    rw [if_pos hloc]
    simpa [pySlice3, bind, Except.bind] using houtF
  · refine ⟨"No specific facilities found in database.\n", ?_⟩
    rw [if_neg hloc]
    rfl

theorem llmOrFallback_okE (llm : String → Except String String) (s : WMState) (p : String)
    (hfb : ∃ t, generate_fallback_response s = .ok t) :
    ∃ b, llmOrFallback llm s p = .ok b := by
  unfold llmOrFallback
  cases hl : llm p with
  | ok content => exact ⟨content, rfl⟩
  | error e => exact hfb

theorem llmOrFallback_always_error (llm : String → Except String String)
    (hfail : ∀ p, ∃ m, llm p = .error m) (s : WMState) (p : String) :
    llmOrFallback llm s p = generate_fallback_response s := by
  obtain ⟨m, hm⟩ := hfail p
  unfold llmOrFallback
  rw [hm]

/-- On a state whose fields have the shapes the collaborator interfaces
document, the fallback synthesizer completes without an exception. -/
theorem generate_fallback_response_ok (s : WMState) (w : String) (hw : s.waste_type = .vStr w)
    (ld : List (String × PyVal)) (hld : s.user_location = .vDict ld)
    (hr : RegsOk s.local_regulations) (hf : DictListOk s.disposal_locations) :
    ∃ t, generate_fallback_response s = .ok t := by
  unfold generate_fallback_response
  rw [hw, hld]
  refine except_bind_ok_of _ _ ⟨_, rfl⟩ ?_
  intro city _
  dsimp only
  refine except_bind_ok_of _ _ ⟨_, rfl⟩ ?_
  intro stn _
  dsimp only
  refine except_bind_ok_of _ _ ⟨_, rfl⟩ ?_
  intro wtT _
  dsimp only
  refine except_bind_ok_of _ _ (fallbackRegulationsSection_okE _ hr _) ?_
  intro p2 _
  dsimp only
  refine except_bind_ok_of _ _ (fallbackFacilitiesSection_okE _ hf _) ?_
  intro p3 _
  dsimp only
  exact ⟨_, rfl⟩

/-! ### The fallback report is never the empty string -/

theorem foldl_join_length (xs : List String) :
    ∀ acc : String, acc.length ≤ (xs.foldl (fun a y => a ++ "\n" ++ y) acc).length := by
  induction xs with
  | nil => intro acc; exact le_refl _
  | cons y ys ih =>
    intro acc
    calc acc.length ≤ (acc ++ "\n" ++ y).length := by
          simp [String.length_append]
          omega
      _ ≤ _ := ih (acc ++ "\n" ++ y)

theorem joinLines_cons_length (x : String) (xs : List String) :
    x.length ≤ (joinLines (x :: xs)).length := by
  unfold joinLines
  exact foldl_join_length xs x

theorem joinLines_ne_empty_of_head (x : String) (hx : x.length ≠ 0) (xs : List String) :
    joinLines (x :: xs) ≠ "" := by
  intro h
  have h1 := joinLines_cons_length x xs
  rw [h] at h1
  have h0 : ("" : String).length = 0 := rfl
  omega

theorem fallbackRegulationsSection_shape (v : PyVal) (p1 out : List String)
    (h : fallbackRegulationsSection v p1 = .ok out) : ∃ r, out = p1 ++ r := by
  unfold fallbackRegulationsSection at h
  by_cases hc : pyTruthy v = true
  · rw [if_pos hc] at h
    obtain ⟨rules, _, h⟩ := except_bind_inv _ _ _ h
    obtain ⟨prep, _, h⟩ := except_bind_inv _ _ _ h
    by_cases hp : pyTruthy prep = true
    · rw [if_pos hp] at h
      obtain ⟨steps, _, h⟩ := except_bind_inv _ _ _ h
      simp only [pure, Except.pure, Except.ok.injEq] at h
      refine ⟨["\n**Local Regulations:**", "• " ++ pyStr rules] ++
        ("\n**Preparation Steps:**" :: steps.map (fun st => "• " ++ pyStr st)), ?_⟩
      rw [← h]
      simp
    · rw [if_neg hp] at h
      simp only [pure, Except.pure, Except.ok.injEq] at h
      refine ⟨["\n**Local Regulations:**", "• " ++ pyStr rules], ?_⟩
      rw [← h]
  · rw [if_neg hc] at h
    simp only [pure, Except.pure, Except.ok.injEq] at h
    refine ⟨[], ?_⟩
    rw [← h]
    simp

theorem fallbackFacilitiesSection_shape (v : PyVal) (p2 out : List String)
    (h : fallbackFacilitiesSection v p2 = .ok out) : ∃ r, out = p2 ++ r := by
  unfold fallbackFacilitiesSection at h
  by_cases hc : pyTruthy v = true
  · rw [if_pos hc] at h
    obtain ⟨fac3, _, h⟩ := except_bind_inv _ _ _ h
    obtain ⟨lines, _, h⟩ := except_bind_inv _ _ _ h
    simp only [pure, Except.pure, Except.ok.injEq] at h
    refine ⟨"\n**Disposal Locations Near You:**" :: lines, ?_⟩
    rw [← h]
    simp
  · rw [if_neg hc] at h
    simp only [pure, Except.pure, Except.ok.injEq] at h
    refine ⟨["\n**Disposal Options:**",
      "• Contact your local waste management service",
      "• Check with municipal recycling programs",
      "• Search online for local disposal facilities"], ?_⟩
    rw [← h]

/-- Every report the fallback synthesizer completes starts with its fixed
header, hence is never the empty string. -/
theorem generate_fallback_response_ne_empty (s : WMState) (t : String)
    (h : generate_fallback_response s = .ok t) : t ≠ "" := by
  unfold generate_fallback_response at h
  obtain ⟨city, _, h⟩ := except_bind_inv _ _ _ h
  obtain ⟨stn, _, h⟩ := except_bind_inv _ _ _ h
  obtain ⟨wtT, _, h⟩ := except_bind_inv _ _ _ h
  obtain ⟨p2, hp2, h⟩ := except_bind_inv _ _ _ h
  obtain ⟨p3, hp3, h⟩ := except_bind_inv _ _ _ h
  simp only [pure, Except.pure, Except.ok.injEq] at h
  obtain ⟨r2, hr2⟩ := fallbackRegulationsSection_shape _ _ _ hp2
  obtain ⟨r3, hr3⟩ := fallbackFacilitiesSection_shape _ _ _ hp3
  have hhead : ("## " ++ wtT ++ " Disposal Guidance for " ++ pyStr city ++ ", " ++
      pyStr stn).length ≠ 0 := by
    have h3 : ("## " : String).length = 3 := rfl
    simp [String.length_append]
    omega
  rw [← h, hr3, hr2]
  simp only [List.cons_append, List.append_assoc, List.singleton_append]
  exact joinLines_ne_empty_of_head _ hhead _

/-- On a well-shaped state the whole response generation completes for any
LLM oracle. -/
theorem generate_final_response_ok (llm : String → Except String String)
    (s : WMState) (w : String) (hw : s.waste_type = .vStr w)
    (ld : List (String × PyVal)) (hld : s.user_location = .vDict ld)
    (hr : RegsOk s.local_regulations) (hf : DictListOk s.disposal_locations) :
    ∃ t, generate_final_response llm s = .ok t := by
  obtain ⟨xs, hxs, hdicts⟩ := hf
  unfold generate_final_response
  rw [hw, hld, hxs]
  refine except_bind_ok_of _ _ ⟨_, rfl⟩ ?_
  intro city _
  dsimp only
  refine except_bind_ok_of _ _ ⟨_, rfl⟩ ?_
  intro stn _
  dsimp only
  refine except_bind_ok_of _ _ ⟨_, rfl⟩ ?_
  intro nloc _
  dsimp only
  refine except_bind_ok_of _ _ (regulationSummary_okE _ hr) ?_
  intro regSummary _
  dsimp only
  refine except_bind_ok_of _ _ (contextFacilities_okE _ ⟨xs, rfl, hdicts⟩) ?_
  intro facPart _
  dsimp only
  refine llmOrFallback_okE llm s _ ?_
  exact generate_fallback_response_ok s w hw ld hld hr (by rw [hxs]; exact ⟨xs, rfl, hdicts⟩)

/-- When the LLM fails on every prompt, a completed response generation
is exactly the fallback report. -/
theorem generate_final_response_of_llm_error (llm : String → Except String String)
    (hfail : ∀ p, ∃ m, llm p = .error m) (s : WMState) (t : String)
    (h : generate_final_response llm s = .ok t) :
    generate_fallback_response s = .ok t := by
  unfold generate_final_response at h
  obtain ⟨city, _, h⟩ := except_bind_inv _ _ _ h
  obtain ⟨stn, _, h⟩ := except_bind_inv _ _ _ h
  obtain ⟨nloc, _, h⟩ := except_bind_inv _ _ _ h
  obtain ⟨regSummary, _, h⟩ := except_bind_inv _ _ _ h
  obtain ⟨facPart, _, h⟩ := except_bind_inv _ _ _ h
  rwa [llmOrFallback_always_error llm hfail s _] at h

/-! ### Concrete test collaborators -/

/-- A location dict as the geolocation collaborator returns it. -/
def exLocDict : List (String × PyVal) := [("city", .vStr "NYC"), ("state", .vStr "NY")]

/-- A regulations dict as the regulation collaborator returns it. -/
def exRegsDict : List (String × PyVal) := [("rules", .vStr "test rules")]

/-- A classifier result dict. -/
def exClassDict : PyVal := .vDict [("primary_type", .vStr "e-waste")]

/-- A facility dict. -/
def exFacility : PyVal := .vDict [("name", .vStr "Fac1"), ("address", .vStr "1 Main St")]

/-- Test collaborators whose facility finder throws on every call and whose
other tools behave normally. -/
def trapCollab : Collaborators :=
  { waste_classifier := fun _ => .ok exClassDict
    geolocation := fun _ => .ok (.vDict exLocDict)
    regulation_lookup := fun _ _ => .ok (.vDict exRegsDict)
    location_finder := fun _ _ => .error "boom"
    llm := fun _ => .ok "LLM TEXT" }

/-- Test collaborators that all behave normally. -/
def goodCollab : Collaborators :=
  { trapCollab with
      location_finder := fun _ _ => .ok (.vDict [("facilities", .vList [exFacility])]) }

theorem trapCollab_classifier_ok : ClassifierOk trapCollab.waste_classifier := by
  intro q d v hd hv
  have hd' : d = exClassDict := by
    have h2 : (Except.ok exClassDict : Except String PyVal) = .ok d := hd
    injection h2 with h2
    exact h2.symm
  subst hd'
  have h3 : (Except.ok (PyVal.vStr "e-waste") : Except String PyVal) = .ok v := by
    rw [← hv]
    rfl
  injection h3 with h3
  exact ⟨"e-waste", h3.symm⟩

/-- A state in which the first three fields are set but the facility list
is empty: the configuration claim C1 speaks about. -/
def c1state : WMState :=
  { initial_state "old laptop" .vNone with
      waste_type := .vStr "e-waste",
      user_location := .vDict exLocDict,
      local_regulations := .vDict exRegsDict,
      disposal_locations := .vList [] }

/-- A state with every data field set, a non-empty facility list, and
`final_response` already set. -/
def c4state : WMState :=
  { c1state with disposal_locations := .vList [exFacility],
                 final_response := .vStr "done text" }

/-! ### Claim C1 -/

/-- C1 counterexample: on a state whose wasteType, location and regulation
are set and whose facilities value is the empty list, the router returns
`find_locations`, not `generate_response` as the claim states. -/
theorem C1_empty_facilities_counterexample :
    plan_next_action c1state = "find_locations" ∧
    plan_next_action c1state ≠ "generate_response" := ⟨rfl, by decide⟩

/-- C1 (amended): the router is a pure function of the state with the
stated precedence order, but a field counts as set only when it is Python
truthy; in particular the empty facilities list counts as unset, so such
states route to `find_locations`, and `generate_response` is returned only
when the facilities value is truthy (a non-empty list). -/
theorem C1_router_truthiness_precedence (s : WMState) :
    (pyTruthy s.waste_type = false → plan_next_action s = "classify_waste") ∧
    (pyTruthy s.waste_type = true → pyTruthy s.user_location = false →
      plan_next_action s = "get_location") ∧
    (pyTruthy s.waste_type = true → pyTruthy s.user_location = true →
      pyTruthy s.local_regulations = false → plan_next_action s = "lookup_regulations") ∧
    (pyTruthy s.waste_type = true → pyTruthy s.user_location = true →
      pyTruthy s.local_regulations = true → pyTruthy s.disposal_locations = false →
      plan_next_action s = "find_locations") ∧
    (pyTruthy s.waste_type = true → pyTruthy s.user_location = true →
      pyTruthy s.local_regulations = true → pyTruthy s.disposal_locations = true →
      plan_next_action s = "generate_response") ∧
    (s.disposal_locations = .vList [] → pyTruthy s.disposal_locations = false) := by
  refine ⟨?_, ?_, ?_, ?_, ?_, ?_⟩
  · intro h1
    simp [plan_next_action, h1]
  · intro h1 h2
    simp [plan_next_action, h1, h2]
  · intro h1 h2 h3
    simp [plan_next_action, h1, h2, h3]
  · intro h1 h2 h3 h4
    simp [plan_next_action, h1, h2, h3, h4]
  · intro h1 h2 h3 h4
    simp [plan_next_action, h1, h2, h3, h4]
  · intro h1
    rw [h1]
    rfl

/-- C1 witness: the precedence theorem evaluated on the empty initial
state selects classification first. -/
theorem C1_router_truthiness_precedence_witness :
    plan_next_action (initial_state "w1" .vNone) = "classify_waste" :=
  (C1_router_truthiness_precedence (initial_state "w1" .vNone)).1 rfl

/-! ### Claim C2 -/

/-- C2 counterexample: with a facility finder that throws on every call
(and otherwise normal collaborators), the workflow does not complete:
`success` is `False` (the claim states `true`), the result carries no
facilities key at all (the claim states the empty list), and the recorded
error is the modelled recursion-limit message. -/
theorem C2_finder_failure_counterexample :
    dictLookup (process_query trapCollab "broken tv" .vNone) "success" =
      some (.vBool false) ∧
    dictLookup (process_query trapCollab "broken tv" .vNone) "disposal_locations" = none ∧
    dictLookup (process_query trapCollab "broken tv" .vNone) "error_message" =
      some (.vStr graphRecursionMsg) := ⟨rfl, rfl, rfl⟩

/-- C2 (amended): when the facility finder throws on every call and the
other collaborators return well-shaped truthy values, the empty-list
fallback keeps the facilities entry falsy, so the router re-enters
`find_locations` until the recursion limit aborts the graph; the driver
then returns `success = false`, the recursion-limit `errorMessage`, the
fixed apology `finalResponse` (which does tell the user to contact local
waste management services), and no facilities entry at all. -/
theorem C2_finder_failure_amended (c : Collaborators) (q wt : String)
    (ld rd : List (String × PyVal))
    (hwt : pyTruthy (.vStr wt) = true) (hld : pyTruthy (.vDict ld) = true)
    (hrd : pyTruthy (.vDict rd) = true)
    (hcl : ∀ t, c.waste_classifier t = .ok (.vDict [("primary_type", .vStr wt)]))
    (hgeo : ∀ h, c.geolocation h = .ok (.vDict ld))
    (hreg : ∀ l w, c.regulation_lookup l w = .ok (.vDict rd))
    (m : String) (hfind : ∀ l w, c.location_finder l w = .error m) :
    dictLookup (process_query c q .vNone) "success" = some (.vBool false) ∧
    dictLookup (process_query c q .vNone) "error_message" = some (.vStr graphRecursionMsg) ∧
    dictLookup (process_query c q .vNone) "final_response" = some (.vStr apologyMsg) ∧
    dictLookup (process_query c q .vNone) "disposal_locations" = none := by
  have hrun := c2_run c q wt ld rd m hwt hld hrd hcl hgeo hreg hfind
  unfold process_query
  rw [hrun]
  exact ⟨rfl, rfl, rfl, rfl⟩

/-- C2 witness: the amended theorem evaluated at the concrete
always-throwing finder. -/
theorem C2_finder_failure_amended_witness :
    dictLookup (process_query trapCollab "w2" .vNone) "success" = some (.vBool false) ∧
    dictLookup (process_query trapCollab "w2" .vNone) "error_message" =
      some (.vStr graphRecursionMsg) ∧
    dictLookup (process_query trapCollab "w2" .vNone) "final_response" =
      some (.vStr apologyMsg) ∧
    dictLookup (process_query trapCollab "w2" .vNone) "disposal_locations" = none :=
  C2_finder_failure_amended trapCollab "w2" "e-waste" exLocDict exRegsDict rfl rfl rfl
    (fun _ => rfl) (fun _ => rfl) (fun _ _ => rfl) "boom" (fun _ _ => rfl)

/-! ### Claim C3 -/

/-- C3 counterexample: when the cap is reached, the classify stage did run
(it appears in the executed stages and produced `waste_type = e-waste` from
this state), yet the returned result carries no `waste_type` entry at all:
partial state is discarded by the failure branch, not returned. -/
theorem C3_partial_state_counterexample :
    dictLookup (process_query trapCollab "laptop battery" .vNone) "success" =
      some (.vBool false) ∧
    dictLookup (process_query trapCollab "laptop battery" .vNone) "waste_type" = none ∧
    (classify_waste trapCollab.waste_classifier
      (initial_state "laptop battery" .vNone)).waste_type = .vStr "e-waste" ∧
    "classify_waste" ∈
      stagesRun trapCollab workflow_recursion_rounds (initial_state "laptop battery" .vNone) := by
  refine ⟨rfl, rfl, rfl, ?_⟩
  decide

/-- C3 (amended): if the iteration cap is reached without `finalResponse`
set (or any other exception escapes a node), `execute` neither loops
forever nor raises: it returns a result with `success = false`, the raised
message as `errorMessage`, and the fixed apology `finalResponse`; however
the partial state is discarded — the failure result contains no
`waste_type`, `user_location`, `local_regulations` or `disposal_locations`
entries at all. -/
theorem C3_cap_reached_amended (c : Collaborators) (q : String) (loc : PyVal) (e : String)
    (h : runGraph c workflow_recursion_rounds (initial_state q loc) = .error e) :
    dictLookup (process_query c q loc) "success" = some (.vBool false) ∧
    dictLookup (process_query c q loc) "error_message" = some (.vStr e) ∧
    dictLookup (process_query c q loc) "final_response" = some (.vStr apologyMsg) ∧
    dictLookup (process_query c q loc) "waste_type" = none ∧
    dictLookup (process_query c q loc) "user_location" = none ∧
    dictLookup (process_query c q loc) "local_regulations" = none ∧
    dictLookup (process_query c q loc) "disposal_locations" = none := by
  unfold process_query
  rw [h]
  exact ⟨rfl, rfl, rfl, rfl, rfl, rfl, rfl⟩

/-- C3 witness: the amended theorem evaluated at the concrete
always-throwing finder, whose run provably exhausts the cap. -/
theorem C3_cap_reached_amended_witness :
    dictLookup (process_query trapCollab "w3" .vNone) "success" = some (.vBool false) ∧
    dictLookup (process_query trapCollab "w3" .vNone) "error_message" =
      some (.vStr graphRecursionMsg) ∧
    dictLookup (process_query trapCollab "w3" .vNone) "final_response" =
      some (.vStr apologyMsg) ∧
    dictLookup (process_query trapCollab "w3" .vNone) "waste_type" = none ∧
    dictLookup (process_query trapCollab "w3" .vNone) "user_location" = none ∧
    dictLookup (process_query trapCollab "w3" .vNone) "local_regulations" = none ∧
    dictLookup (process_query trapCollab "w3" .vNone) "disposal_locations" = none :=
  C3_cap_reached_amended trapCollab "w3" .vNone graphRecursionMsg (by rfl)

/-! ### Claim C4 -/

/-- C4 counterexample: on a state with `finalResponse` already set (and all
data fields truthy), the router returns `generate_response` again, not the
terminal sentinel `done`. -/
theorem C4_final_response_counterexample :
    pyTruthy c4state.final_response = true ∧
    plan_next_action c4state = "generate_response" ∧
    plan_next_action c4state ≠ "done" := ⟨rfl, rfl, by decide⟩

/-- C4 (amended): the router never consults `finalResponse` (its result is
invariant under changing that field) and never returns a terminal sentinel
(`done`, or the graph's `end` key); stage logic is not re-entered after
response generation only because of the fixed graph edge
`generate_response → END`: once the supervisor selects `generate_response`
and that node succeeds, the run returns immediately. -/
theorem C4_router_ignores_final_response :
    (∀ (s : WMState) (v : PyVal),
      plan_next_action { s with final_response := v } = plan_next_action s) ∧
    (∀ s : WMState, plan_next_action s ≠ "done" ∧ plan_next_action s ≠ "end") ∧
    (∀ (c : Collaborators) (fuel : Nat) (s s2 : WMState),
      plan_next_action s = "generate_response" →
      stepStage c "generate_response"
        { s with processing_step := .vStr "generate_response" } = .ok s2 →
      runGraph c (fuel + 1) s = .ok s2) := by
  refine ⟨?_, ?_, ?_⟩
  · intro s v
    rfl
  · intro s
    exact ⟨plan_next_action_ne_done s, plan_next_action_ne_end s⟩
  · intro c fuel s s2 hplan hstep
    rw [← hplan] at hstep
    rw [runGraph_step_ok c fuel s s2 hstep, if_pos hplan]

/-- C4 witness: one step from a completed state with a normal LLM ends the
run immediately with the generated response stored. -/
theorem C4_router_ignores_final_response_witness :
    runGraph goodCollab (0 + 1) c4state =
      .ok { c4state with processing_step := .vStr "generate_response",
                         final_response := .vStr "LLM TEXT" } :=
  (C4_router_ignores_final_response).2.2 goodCollab 0 c4state
    { c4state with processing_step := .vStr "generate_response",
                   final_response := .vStr "LLM TEXT" } rfl rfl

/-! ### Claim C5 -/

/-- C5 counterexample: when the classifier raises, the except branch sets
only `waste_type = household` and `errorMessage`; `confidence_score` and
`waste_classification` (which carries `specialHandling`) remain unset —
no low confidence and no `specialHandling = false` are recorded. -/
theorem C5_confidence_counterexample :
    (classify_waste (fun _ => .error "boom") (initial_state "" .vNone)).waste_type =
      .vStr "household" ∧
    (classify_waste (fun _ => .error "boom") (initial_state "" .vNone)).confidence_score =
      .vNone ∧
    (classify_waste (fun _ => .error "boom") (initial_state "" .vNone)).waste_classification =
      .vNone ∧
    (classify_waste (fun _ => .error "boom") (initial_state "" .vNone)).error_message =
      .vStr "Classification error: boom" := ⟨rfl, rfl, rfl, rfl⟩

/-- C5 (amended): if the classifier raises (for any query text, including
the empty string), `classify_waste` returns without raising, sets
`wasteType = household` and an explanatory `errorMessage`, and leaves
every other field — in particular `confidence_score` and the
classification record holding `specialHandling` — exactly as it was. -/
theorem C5_classifier_failure_amended (tool : String → Except String PyVal)
    (s : WMState) (m : String) (h : tool s.user_query = .error m) :
    classify_waste tool s =
      { s with waste_type := .vStr "household",
               error_message := .vStr ("Classification error: " ++ m) } := by
  unfold classify_waste
  rw [h]

/-- C5 witness: the amended theorem evaluated at an always-raising
classifier on the empty initial state. -/
theorem C5_classifier_failure_amended_witness :
    classify_waste (fun _ => .error "down") (initial_state "w5" .vNone) =
      { initial_state "w5" .vNone with
          waste_type := .vStr "household",
          error_message := .vStr ("Classification error: " ++ "down") } :=
  C5_classifier_failure_amended (fun _ => .error "down") (initial_state "w5" .vNone)
    "down" rfl

/-! ### Claim C6 -/

/-- C6 (confirmed): for every collaborator behaviour, every query string
(including the empty and pathological ones) and every optional location,
`process_query` terminates within the modelled recursion cap and returns a
result record: its `success` entry is a boolean, it echoes the query, and
it always carries a string `finalResponse` (the generated report on
success, the apology on the failure path) — it never hangs and never
raises past its boundary. -/
theorem C6_execute_always_returns (c : Collaborators) (q : String) (loc : PyVal) :
    (∃ b, dictLookup (process_query c q loc) "success" = some (.vBool b)) ∧
    dictLookup (process_query c q loc) "user_query" = some (.vStr q) ∧
    (∃ t, dictLookup (process_query c q loc) "final_response" = some (.vStr t)) := by
  unfold process_query
  cases hrun : runGraph c workflow_recursion_rounds (initial_state q loc) with
  | error e => exact ⟨⟨false, rfl⟩, rfl, ⟨apologyMsg, rfl⟩⟩
  | ok fs =>
    obtain ⟨str, hstr⟩ := runGraph_ok_final c workflow_recursion_rounds _ fs hrun
    refine ⟨⟨true, rfl⟩, rfl, ⟨str, ?_⟩⟩
    have hl : dictLookup [("success", PyVal.vBool true),
        ("user_query", PyVal.vStr q),
        ("waste_type", fs.waste_type),
        ("user_location", fs.user_location),
        ("final_response", fs.final_response),
        ("waste_classification", fs.waste_classification),
        ("local_regulations", fs.local_regulations),
        ("disposal_locations", fs.disposal_locations),
        ("confidence_score", fs.confidence_score),
        ("processing_time_ms", PyVal.vNum 0),
        ("error_message", fs.error_message)] "final_response" = some fs.final_response := rfl
    rw [hl, hstr]

/-! ### Claim C7 -/

/-- C7 (confirmed): under the classifier interface of the specification
(a successful classification carries a string `primary_type`), every
successful graph run preserves non-null fields: once `wasteType`,
`location`, `regulation`, `facilities` or `finalResponse` is non-null it
is never reset to null by any later stage; moreover the facilities entry
is left exactly unchanged by every stage other than `find_locations`
(stages only produce data for their own field). -/
theorem C7_monotonic_fields (c : Collaborators) (hf : ClassifierOk c.waste_classifier) :
    (∀ fuel s t, runGraph c fuel s = .ok t → FieldsMono s t) ∧
    (∀ s, (classify_waste c.waste_classifier s).disposal_locations =
      s.disposal_locations) ∧
    (∀ s, (get_location c.geolocation s).disposal_locations = s.disposal_locations) ∧
    (∀ s, (lookup_regulations c.regulation_lookup s).disposal_locations =
      s.disposal_locations) ∧
    (∀ s t, generate_response_node c.llm s = .ok t →
      t.disposal_locations = s.disposal_locations) := by
  refine ⟨runGraph_mono c hf, ?_, ?_, ?_, ?_⟩
  · intro s
    exact (classify_waste_frame c.waste_classifier s).2.2.2.1
  · intro s
    exact (get_location_frame c.geolocation s).2.2.2.1
  · intro s
    exact (lookup_regulations_frame c.regulation_lookup s).2.2.2.1
  · intro s t h
    obtain ⟨str, _, ht⟩ := generate_response_node_ok c.llm s t h
    rw [ht]

/-- C7 witness: the facilities-frame conjunct evaluated at the concrete
classifier and a concrete state. -/
theorem C7_monotonic_fields_witness :
    (classify_waste trapCollab.waste_classifier
      (initial_state "w7" .vNone)).disposal_locations =
      (initial_state "w7" .vNone).disposal_locations :=
  (C7_monotonic_fields trapCollab trapCollab_classifier_ok).2.1 (initial_state "w7" .vNone)

/-! ### Claim C8 -/

/-- C8 (confirmed): the deterministic fallback synthesizer is a pure
function of the state — two calls on the same state yield byte-identical
outcomes, and in particular byte-identical output strings whenever it
completes. -/
theorem C8_fallback_idempotent (s : WMState) (t1 t2 : String)
    (h1 : generate_fallback_response s = .ok t1)
    (h2 : generate_fallback_response s = .ok t2) : t1 = t2 := by
  rw [h1] at h2
  injection h2

set_option maxRecDepth 8192 in
/-- C8 witness: two evaluations of the fallback on a concrete completed
state produce the same concrete report. -/
theorem C8_fallback_idempotent_witness :
    "## E-Waste Disposal Guidance for NYC, NY\n\n**Waste Classification:** Your waste has been classified as e-waste.\n\n**Local Regulations:**\n• test rules\n\n**Disposal Locations Near You:**\n1. **Fac1** - 1 Main St (Unknownkm)\n\n**Next Steps:**\n1. Follow any preparation requirements listed above\n2. Contact the facility to confirm they accept your waste type\n3. Check facility hours and any fees\n4. Transport your waste safely to the disposal location" =
    "## E-Waste Disposal Guidance for NYC, NY\n\n**Waste Classification:** Your waste has been classified as e-waste.\n\n**Local Regulations:**\n• test rules\n\n**Disposal Locations Near You:**\n1. **Fac1** - 1 Main St (Unknownkm)\n\n**Next Steps:**\n1. Follow any preparation requirements listed above\n2. Contact the facility to confirm they accept your waste type\n3. Check facility hours and any fees\n4. Transport your waste safely to the disposal location" :=
  C8_fallback_idempotent c4state _ _ (by rfl) (by rfl)

/-! ### Claim C9 -/

/-- The caller-supplied location used in the C9 scenario. -/
def suppliedLoc : PyVal := .vDict [("city", .vStr "Boston"), ("state", .vStr "MA")]

/-- C9 counterexample: a truthy location is supplied, yet on the failure
path (facility finder throwing on every call, cap reached) the returned
result contains no location entry at all, so the result's location is not
the caller-supplied value. -/
theorem C9_failure_path_counterexample :
    pyTruthy suppliedLoc = true ∧
    dictLookup (process_query trapCollab "tv" suppliedLoc) "user_location" = none ∧
    dictLookup (process_query trapCollab "tv" suppliedLoc) "success" =
      some (.vBool false) := ⟨rfl, rfl, rfl⟩

/-- C9 (amended): when a truthy location is supplied, the `get_location`
stage never executes during the run, and the location entry of the state
is never modified; whenever the run completes (`success = true`), the
returned result's location entry is exactly the caller-supplied value.
On the failure path the result simply has no location entry. -/
theorem C9_supplied_location_amended (c : Collaborators) (q : String) (loc : PyVal)
    (h : pyTruthy loc = true) :
    "get_location" ∉ stagesRun c workflow_recursion_rounds (initial_state q loc) ∧
    ∀ t, runGraph c workflow_recursion_rounds (initial_state q loc) = .ok t →
      t.user_location = loc ∧
      dictLookup (process_query c q loc) "user_location" = some loc := by
  have hk := run_keeps_location c loc h workflow_recursion_rounds (initial_state q loc) rfl
  refine ⟨hk.1, ?_⟩
  intro t ht
  have hloc := hk.2 t ht
  refine ⟨hloc, ?_⟩
  unfold process_query
  rw [ht]
  have hl : dictLookup [("success", PyVal.vBool true),
      ("user_query", PyVal.vStr q),
      ("waste_type", t.waste_type),
      ("user_location", t.user_location),
      ("final_response", t.final_response),
      ("waste_classification", t.waste_classification),
      ("local_regulations", t.local_regulations),
      ("disposal_locations", t.disposal_locations),
      ("confidence_score", t.confidence_score),
      ("processing_time_ms", PyVal.vNum 0),
      ("error_message", t.error_message)] "user_location" = some t.user_location := rfl
  rw [hl, hloc]

/-- C9 witness: with the concrete throwing finder and a supplied location,
the location stage never runs. -/
theorem C9_supplied_location_amended_witness :
    "get_location" ∉
      stagesRun trapCollab workflow_recursion_rounds (initial_state "w9" suppliedLoc) :=
  (C9_supplied_location_amended trapCollab "w9" suppliedLoc rfl).1

/-! ### Claim C10 -/

/-- The state claim C10 speaks about: wasteType set, everything else null. -/
def c10state : WMState :=
  { initial_state "battery" .vNone with waste_type := .vStr "household" }

/-- C10 counterexample: on a state whose wasteType is set but whose
location is null, the stage raises (the context build calls `.get` on
`None` before any try block) even with a healthy LLM, and no
`finalResponse` is produced. -/
theorem C10_missing_location_counterexample :
    c10state.waste_type = .vStr "household" ∧
    generate_response_node (fun _ => .ok "ready response") c10state =
      .error attrGetMsg := ⟨rfl, rfl⟩

/-- C10 (amended): whenever `generate_response` executes on a state whose
fields have the shapes the earlier stages and collaborator interfaces
guarantee — wasteType a string, location a dict, regulations falsy or a
dict, facilities a list of dicts — the stage never raises: it stores some
string response for any LLM outcome, and when the LLM raises on every
prompt the stored response is the deterministic fallback report, which is
non-empty.  The hypothesis of the original claim (wasteType set alone) is
not sufficient. -/
theorem C10_generate_response_amended (llm : String → Except String String)
    (s : WMState) (w : String) (hw : s.waste_type = .vStr w)
    (ld : List (String × PyVal)) (hld : s.user_location = .vDict ld)
    (hr : RegsOk s.local_regulations) (hf : DictListOk s.disposal_locations) :
    (∃ t, generate_response_node llm s = .ok { s with final_response := .vStr t }) ∧
    ((∀ p, ∃ m, llm p = .error m) →
      ∃ t, generate_response_node llm s = .ok { s with final_response := .vStr t } ∧
        t ≠ "") := by
  obtain ⟨t, ht⟩ := generate_final_response_ok llm s w hw ld hld hr hf
  constructor
  · refine ⟨t, ?_⟩
    unfold generate_response_node
    rw [ht]
  · intro hfail
    refine ⟨t, ?_, ?_⟩
    · unfold generate_response_node
      rw [ht]
    · exact generate_fallback_response_ne_empty s t
        (generate_final_response_of_llm_error llm hfail s t ht)

/-- C10 witness: the amended theorem evaluated on a concrete completed
state with an always-failing LLM. -/
theorem C10_generate_response_amended_witness :
    ∃ t, generate_response_node (fun _ => Except.error "llm down") c4state =
      .ok { c4state with final_response := .vStr t } :=
  (C10_generate_response_amended (fun _ => Except.error "llm down") c4state
    "e-waste" rfl exLocDict rfl
    (Or.inr ⟨exRegsDict, rfl, Or.inl rfl⟩)
    ⟨[exFacility], rfl, fun x hx => by
      rw [List.mem_singleton] at hx
      subst hx
      exact ⟨_, rfl⟩⟩).1
